import Mathlib

/-!
Verification development for the device-control correlation service
(`migratedControlService.js` helper module and `src/services/controlService.js`).

The JavaScript source is shallowly embedded: MongoDB collections become
Lean lists of records, timestamps are integers (milliseconds), JavaScript
values that matter for truthiness and `parseInt` coercion are modelled by
the `JVal` type, and the asynchronous store/transport effects are modelled
by explicit oracles (an error oracle for store queries, an `Option String`
for a publish failure carrying the thrown message).  A document is visible
to a query at time `t` exactly when its insertion timestamp is at most `t`;
the polling loops query at times `start + interval * i` for every `i` with
`interval * i < timeoutMs`, which is exactly the set of iterations the
source's `while (Date.now() - start < timeoutMs)` loop performs.
-/

/-- Models the JavaScript values flowing through request bodies and response
payloads: strings, (integer) numbers, and `undefined` for an absent field. -/
inductive JVal where
  | str (s : String)
  | num (n : Int)
  | undef
deriving DecidableEq, Repr

/-- JavaScript truthiness on `JVal`: the empty string, the number 0 and
`undefined` are falsy. -/
def jsTruthy : JVal → Bool
  | JVal.str s => !(s == "")
  | JVal.num n => !(n == 0)
  | JVal.undef => false

/-- Models `parseInt(v)` on the value forms used in this service: an integer
number parses to itself, a decimal integer string parses via `String.toInt?`,
and anything unparsable (including `undefined`) gives `none`, which models
the JavaScript `NaN` result. -/
def jsParseInt : JVal → Option Int
  | JVal.str s => s.toInt?
  | JVal.num n => some n
  | JVal.undef => none

/-- Models the JavaScript expression `a || b`: returns `a` when truthy,
otherwise `b`. -/
def jsOr (a b : JVal) : JVal :=
  if jsTruthy a then a else b

/-- Models `numExpr || d` where `numExpr` is a `parseInt` result
(`none` = `NaN`): both `NaN` and `0` are falsy and select the default. -/
def jsOrNum (o : Option Int) (d : Int) : Int :=
  match o with
  | some n => if n = 0 then d else n
  | none => d

/-- Truthiness of an optional string-valued field (`none` = absent,
the empty string is falsy). -/
def strTruthy : Option String → Bool
  | none => false
  | some s => !(s == "")

/-- First truthy value of a `||`-chain of optional string fields, as in
`device.thing_name || device.thingid || device.thingId || device.thing_id`. -/
def firstTruthyStr : List (Option String) → Option String
  | [] => none
  | o :: rest => if strTruthy o then o else firstTruthyStr rest

/-- Row of the `sensor_metadata` collection: a device id together with the
target-identity field under its three historical aliases. -/
structure SensorMeta where
  deviceid : String
  thingid : Option String
  thingId : Option String
  thing_id : Option String
deriving DecidableEq, Repr

/-- Models `row.thingid || row.thingId || row.thing_id` from the
`sensor_metadata` fast path of `getThingIdByDeviceId`. -/
def metaThingId (r : SensorMeta) : Option String :=
  firstTruthyStr [r.thingid, r.thingId, r.thing_id]

/-- Device record nested under `users.spaces.devices`, with the alias fields
consulted by `getThingIdByDeviceId`. -/
structure Device where
  device_id : String
  device_type : String
  parent_device_id : Option String
  thing_name : Option String
  thingid : Option String
  thingId : Option String
  thing_id : Option String
deriving DecidableEq, Repr

/-- Models the chain
`device.thing_name || device.thingid || device.thingId || device.thing_id`. -/
def getThingName (d : Device) : Option String :=
  firstTruthyStr [d.thing_name, d.thingid, d.thingId, d.thing_id]

/-- A space holds an optional device array (`if (!space.devices) continue`). -/
structure SpaceRec where
  devices : Option (List Device)
deriving DecidableEq, Repr

/-- A user document as projected by the `users` query (`spaces` only). -/
structure UserDoc where
  spaces : Option (List SpaceRec)
deriving DecidableEq, Repr

/-- Models the Mongo filter `{ "spaces.devices.device_id": deviceid }`:
the user document contains a nested device with the given id. -/
def userMatches (deviceid : String) (u : UserDoc) : Bool :=
  match u.spaces with
  | none => false
  | some sps =>
    sps.any (fun sp =>
      match sp.devices with
      | none => false
      | some ds => ds.any (fun d => d.device_id == deviceid))

/-- Outcome of examining one device while scanning a space in
`getThingIdByDeviceId`: a thing id was found, the whole function returns
null (`return null` for a tank without `parent_device_id`), or the scan
moves on to the next device. -/
inductive ScanStep where
  | found (t : String)
  | abort
  | next
deriving DecidableEq, Repr

/-- One iteration of the inner device loop of `getThingIdByDeviceId`,
translated branch-for-branch from the source: a matching `base` device
returns its alias chain if truthy; a matching `tank` device with no
(or empty) `parent_device_id` makes the whole function return null; a
matching `tank` with a parent reference looks for a `base` sibling with
that id and returns the sibling's alias chain if truthy; in every other
matching case (including a tank whose parent lookup produced nothing) the
generic fallback returns the device's own alias chain if truthy, else the
scan continues. -/
def deviceStep (sdevs : List Device) (deviceid : String) (d : Device) : ScanStep :=
  if d.device_id == deviceid then
    match (if d.device_type == "base" then getThingName d else none) with
    | some t => ScanStep.found t
    | none =>
      if d.device_type == "tank" then
        match d.parent_device_id with
        | none => ScanStep.abort
        | some p =>
          if p == "" then ScanStep.abort
          else
            match (sdevs.find? (fun x => x.device_id == p && x.device_type == "base")).bind getThingName with
            | some t => ScanStep.found t
            | none =>
              match getThingName d with
              | some t => ScanStep.found t
              | none => ScanStep.next
      else
        match getThingName d with
        | some t => ScanStep.found t
        | none => ScanStep.next
  else ScanStep.next

/-- Scan of one space's device list (first argument is the whole list, used
for the parent-sibling lookup; second list is the remaining suffix). -/
def scanDevices (sdevs : List Device) (deviceid : String) : List Device → ScanStep
  | [] => ScanStep.next
  | d :: ds =>
    match deviceStep sdevs deviceid d with
    | ScanStep.next => scanDevices sdevs deviceid ds
    | r => r

/-- Scan of the spaces of the matched user document, in order. -/
def scanSpaces (deviceid : String) : List SpaceRec → ScanStep
  | [] => ScanStep.next
  | sp :: sps =>
    match sp.devices with
    | none => scanSpaces deviceid sps
    | some ds =>
      match scanDevices ds deviceid ds with
      | ScanStep.next => scanSpaces deviceid sps
      | r => r

/-- Embedding of `getThingIdByDeviceId(deviceid)`: guard against a falsy
device id, try the `sensor_metadata` fast path, then search the first user
document containing the device id through its spaces and devices.  Store
queries are modelled error-free here; a query error in the source merely
logs and falls through to the next step, which coincides with the
empty-result behaviour of this model. -/
def getThingIdByDeviceId (meta : List SensorMeta) (users : List UserDoc) (deviceid : String) : Option String :=
  if deviceid == "" then none
  else
    match (meta.find? (fun r => r.deviceid == deviceid)).bind metaThingId with
    | some t => some t
    | none =>
      match users.find? (userMatches deviceid) with
      | none => none
      | some u =>
        match u.spaces with
        | none => none
        | some sps =>
          match scanSpaces deviceid sps with
          | ScanStep.found t => some t
          | _ => none

/-- Outcome of a single store query inside a polling loop: a result
(possibly empty), or a thrown error (the source's `catch` branch). -/
inductive QueryOutcome (A : Type) where
  | ok (r : Option A)
  | err
deriving DecidableEq, Repr

/-- The document a query outcome delivered, if any (an error delivers
nothing, exactly like an empty result). -/
def QueryOutcome.found? {A : Type} : QueryOutcome A → Option A
  | QueryOutcome.ok r => r
  | QueryOutcome.err => none

/-- Generic polling loop shared by the three pollers: run the query at
`start + t` for each offset `t` in order; return the first document found;
a query error or an empty result moves to the next iteration; return
`none` when the offsets (the time budget) are exhausted. -/
def pollLoopE {A : Type} (q : Int → QueryOutcome A) (start : Int) : List Nat → Option A
  | [] => none
  | t :: ts =>
    match q (start + (t : Int)) with
    | QueryOutcome.ok (some d) => some d
    | QueryOutcome.ok none => pollLoopE q start ts
    | QueryOutcome.err => pollLoopE q start ts

/-- Offsets at which a `while (Date.now() - start < timeoutMs)` loop with a
fixed sleep of `interval` runs its query: `interval * i` for every `i` with
`interval * i < timeoutMs`. -/
def pollTimes (interval timeoutMs : Nat) : List Nat :=
  (List.range ((timeoutMs + interval - 1) / interval)).map (fun i => interval * i)

/-- Nested `response_data` payload of a slave-response document, with the
fields read back by `slaveRequest`. -/
structure RespData where
  status : JVal
  channel : JVal
  address_l : JVal
  address_h : JVal
  sensor_no : JVal
  slaveid : JVal
deriving DecidableEq, Repr

/-- Document of the `device_responses` collection. -/
structure RespDoc where
  thingid : String
  deviceid : JVal
  inserted_at : Int
  response_type : String
  response_data : Option RespData
deriving DecidableEq, Repr

/-- The filter of the `device_responses` query in
`waitForSlaveResponseFromMongoDB`, at query time `now`: same `thingid`,
`response_type = 'slave_response'`, `inserted_at` within the last 15
seconds, and (store visibility) already inserted. -/
def slaveMatch (thingid : String) (now : Int) (d : RespDoc) : Bool :=
  d.thingid == thingid && d.response_type == "slave_response" &&
    decide (now - 15000 ≤ d.inserted_at) && decide (d.inserted_at ≤ now)

/-- Models `findOne` with a descending sort on a time field: the first
element of maximal time, preferring earlier list positions on ties. -/
def mostRecentBy {A : Type} (time : A → Int) : List A → Option A
  | [] => none
  | d :: ds =>
    match mostRecentBy time ds with
    | none => some d
    | some b => if time d < time b then some b else some d

/-- One `device_responses` query of the slave-response poller: the most
recent visible matching document. -/
def findSlaveResponse (docs : List RespDoc) (thingid : String) (now : Int) : Option RespDoc :=
  mostRecentBy RespDoc.inserted_at (docs.filter (slaveMatch thingid now))

/-- Embedding of `waitForSlaveResponseFromMongoDB(thingid, timeoutMs)`:
poll every 500 ms while the elapsed time is below the budget; `qerr` tells
which query times throw (the source logs and continues). -/
def waitForSlaveResponseFromMongoDB (docs : List RespDoc) (qerr : Int → Bool)
    (thingid : String) (start : Int) (timeoutMs : Nat) : Option RespDoc :=
  pollLoopE
    (fun now => if qerr now then QueryOutcome.err else QueryOutcome.ok (findSlaveResponse docs thingid now))
    start (pollTimes 500 timeoutMs)

/-- Document of the `tank_readings` collection. -/
structure TankReading where
  deviceid : String
  sensor_no : String
  message_type : String
  timestamp : Int
deriving DecidableEq, Repr

/-- Filter of the `tank_readings` query in `checkBaseRespondedInMongo`:
same device id, `message_type = 'alive_reply'`, timestamp within the last
10 seconds, and already inserted. -/
def aliveMatch (deviceid : String) (now : Int) (d : TankReading) : Bool :=
  d.deviceid == deviceid && d.message_type == "alive_reply" &&
    decide (now - 10000 ≤ d.timestamp) && decide (d.timestamp ≤ now)

/-- One liveness query: most recent visible matching reading. -/
def findAliveReply (tdocs : List TankReading) (deviceid : String) (now : Int) : Option TankReading :=
  mostRecentBy TankReading.timestamp (tdocs.filter (aliveMatch deviceid now))

/-- Embedding of `checkBaseRespondedInMongo(deviceid, timeoutMs)`: poll
every 1000 ms; return whether a matching reading was found in time. -/
def checkBaseRespondedInMongo (tdocs : List TankReading) (qerr : Int → Bool)
    (deviceid : String) (start : Int) (timeoutMs : Nat) : Bool :=
  (pollLoopE
    (fun now => if qerr now then QueryOutcome.err else QueryOutcome.ok (findAliveReply tdocs deviceid now))
    start (pollTimes 1000 timeoutMs)).isSome

/-- Filter of the `tank_readings` query in `checkTankRespondedInMongo`:
same device id and sensor number, `message_type = 'update'`, timestamp
within the last 10 seconds, and already inserted. -/
def updateMatch (deviceid sensorNo : String) (now : Int) (d : TankReading) : Bool :=
  d.deviceid == deviceid && d.sensor_no == sensorNo && d.message_type == "update" &&
    decide (now - 10000 ≤ d.timestamp) && decide (d.timestamp ≤ now)

/-- One sensor-update query: most recent visible matching reading. -/
def findUpdate (tdocs : List TankReading) (deviceid sensorNo : String) (now : Int) : Option TankReading :=
  mostRecentBy TankReading.timestamp (tdocs.filter (updateMatch deviceid sensorNo now))

/-- Embedding of `checkTankRespondedInMongo(deviceid, sensorNo, timeoutMs)`. -/
def checkTankRespondedInMongo (tdocs : List TankReading) (qerr : Int → Bool)
    (deviceid sensorNo : String) (start : Int) (timeoutMs : Nat) : Bool :=
  (pollLoopE
    (fun now => if qerr now then QueryOutcome.err else QueryOutcome.ok (findUpdate tdocs deviceid sensorNo now))
    start (pollTimes 1000 timeoutMs)).isSome

/-- Models a Mongo `_id` value: either a store-internal ObjectId whose
printable (`toString`) form is the carried string, or already a plain
string. -/
inductive MongoId where
  | oid (srep : String)
  | str (s : String)
deriving DecidableEq, Repr

/-- Models `x.toString()` on an `_id` value. -/
def idToString : MongoId → String
  | MongoId.oid s => s
  | MongoId.str s => s

/-- Truthiness of `sanitized._id`: absent is falsy, an ObjectId object is
always truthy, a string is truthy when nonempty. -/
def idTruthy : Option MongoId → Bool
  | none => false
  | some (MongoId.oid _) => true
  | some (MongoId.str s) => !(s == "")

/-- A stored document as seen by `sanitizeMongoDoc`: its `_id` and the
remaining fields, which the function never touches. -/
structure MDoc where
  _id : Option MongoId
  fields : List (String × String)
deriving DecidableEq, Repr

/-- Embedding of `sanitizeMongoDoc(doc)` on a non-null document: copy the
document and, when `_id` is truthy, replace it by its `toString()` form. -/
def sanitizeMongoDoc (d : MDoc) : MDoc :=
  if idTruthy d._id then
    { d with _id := d._id.map (fun i => MongoId.str (idToString i)) }
  else d

/-- Embedding of `sanitizeMongoDoc` including the `if (!doc) return doc`
guard for a null document. -/
def sanitizeMongoDocOpt : Option MDoc → Option MDoc
  | none => none
  | some d => some (sanitizeMongoDoc d)

/-- The request-body fields destructured by `slaveRequest`.  The device id
is a string (its only use besides truthiness is as a query key); the other
fields keep their JavaScript value forms. -/
structure SlaveBody where
  deviceid : String
  sensor_no : JVal
  mode : JVal
  channel : JVal
  address_l : JVal
  address_h : JVal
  range : JVal
  capacity : JVal
  slaveid : JVal
deriving DecidableEq, Repr

/-- The payload `slaveRequest` publishes (`channel`, `range`, `capacity`
are `parseInt` results, where `none` models `NaN`; `slaveid` is present
only when the request value is truthy). -/
structure SlavePayload where
  deviceid : String
  sensor_no : JVal
  mode : Int
  channel : Option Int
  address_l : JVal
  address_h : JVal
  range : Option Int
  capacity : Option Int
  slaveid : Option JVal
deriving DecidableEq, Repr

/-- Payload construction of `slaveRequest`, translated field by field:
`mode: parseInt(mode) || 3`, `channel/range/capacity: parseInt(...)`,
address fields passed through, `slaveid` added only `if (slaveid)`. -/
def buildSlavePayload (b : SlaveBody) : SlavePayload :=
  { deviceid := b.deviceid
    sensor_no := b.sensor_no
    mode := jsOrNum (jsParseInt b.mode) 3
    channel := jsParseInt b.channel
    address_l := b.address_l
    address_h := b.address_h
    range := jsParseInt b.range
    capacity := jsParseInt b.capacity
    slaveid := if jsTruthy b.slaveid then some b.slaveid else none }

/-- The `data` object `slaveRequest` returns when a reply was found. -/
structure SlaveData where
  status : JVal
  deviceid : JVal
  thingid : String
  channel : Option Int
  address_l : JVal
  address_h : JVal
  sensor_no : JVal
  slaveid : JVal
  timestamp : Int
deriving DecidableEq, Repr

/-- Models `response.response_data?.f`: the field when `response_data` is
present, `undefined` otherwise. -/
def respDataField (o : Option RespData) (f : RespData → JVal) : JVal :=
  match o with
  | some rd => f rd
  | none => JVal.undef

/-- The reply-data construction of `slaveRequest`, translated field by
field: `status: response.response_data?.status || "success"`,
`channel: response.response_data?.channel ? parseInt(that) : parseInt(channel)`,
`address_l/address_h/sensor_no: response value || request value`,
`slaveid: response.response_data?.slaveid` (no request fallback),
`timestamp: response.inserted_at`. -/
def buildSlaveData (b : SlaveBody) (r : RespDoc) : SlaveData :=
  { status := jsOr (respDataField r.response_data RespData.status) (JVal.str "success")
    deviceid := r.deviceid
    thingid := r.thingid
    channel :=
      if jsTruthy (respDataField r.response_data RespData.channel) then
        jsParseInt (respDataField r.response_data RespData.channel)
      else jsParseInt b.channel
    address_l := jsOr (respDataField r.response_data RespData.address_l) b.address_l
    address_h := jsOr (respDataField r.response_data RespData.address_h) b.address_h
    sensor_no := jsOr (respDataField r.response_data RespData.sensor_no) b.sensor_no
    slaveid := respDataField r.response_data RespData.slaveid
    timestamp := r.inserted_at }

/-- The HTTP-shaped result of `slaveRequest`: status code and the JSON body
fields it sets (`data = none` covers both an absent `data` field and an
explicit `data: null`; the branches are told apart by `success`,
`message` and `error`). -/
structure SlaveResponse where
  status : Nat
  success : Bool
  message : Option String
  error : Option String
  data : Option SlaveData
deriving DecidableEq, Repr

/-- Full observable outcome of one `slaveRequest` call: the HTTP response
plus whether identity resolution ran, which payload was handed to the
publish capability (if any), and whether the response poll ran. -/
structure SlaveOutcome where
  resp : SlaveResponse
  resolved : Bool
  published : Option SlavePayload
  polled : Bool
deriving DecidableEq, Repr

/-- Embedding of `slaveRequest(req, res)`.  Effects are explicit: `meta`
and `users` are the resolution collections, `docs` the `device_responses`
collection, `qerr` the store-error oracle of the poll, `pubFail` is
`some m` when `publishToIoT` throws with message `m`, and `start` is the
time at which the poll loop starts.  Validation (`!deviceid || !sensor_no`)
returns 400; an unresolvable device returns 404; a publish failure is
caught and returns 500 before any poll; otherwise the poll runs with a
10-second budget and the call returns 200 with the built reply data or
with null data on timeout. -/
def slaveRequest (meta : List SensorMeta) (users : List UserDoc) (docs : List RespDoc)
    (qerr : Int → Bool) (pubFail : Option String) (start : Int) (b : SlaveBody) : SlaveOutcome :=
  if b.deviceid == "" || !(jsTruthy b.sensor_no) then
    { resp := { status := 400, success := false, message := none,
                error := some "Missing deviceid or sensor_no", data := none }
      resolved := false, published := none, polled := false }
  else
    match getThingIdByDeviceId meta users b.deviceid with
    | none =>
      { resp := { status := 404, success := false, message := none,
                  error := some "DeviceId not found or no associated thing ID", data := none }
        resolved := true, published := none, polled := false }
    | some thingid =>
      match pubFail with
      | some m =>
        { resp := { status := 500, success := false, message := none, error := some m, data := none }
          resolved := true, published := some (buildSlavePayload b), polled := false }
      | none =>
        match waitForSlaveResponseFromMongoDB docs qerr thingid start 10000 with
        | some r =>
          { resp := { status := 200, success := true, message := some "Published and response received",
                      error := none, data := some (buildSlaveData b r) }
            resolved := true, published := some (buildSlavePayload b), polled := true }
        | none =>
          { resp := { status := 200, success := true, message := some "Published but no response received",
                      error := none, data := none }
            resolved := true, published := some (buildSlavePayload b), polled := true }

/-- Successful return value of `setting`. -/
structure SettingOk where
  success : Bool
  topic : String
deriving DecidableEq, Repr

/-- Observable outcome of one `setting` call: the returned value or the
thrown error message, plus whether `publishToIoT` was invoked. -/
structure SettingOutcome where
  result : Except String SettingOk
  publishAttempted : Bool
deriving Repr

/-- Embedding of `setting(deviceid, payload)`.  The topic-name scheme
`getTopic` is externally owned and passed in as `gTopic`; `pubFail` is
`some m` when `publishToIoT` throws with message `m`.  The whole body runs
inside one `try`: when resolution yields nothing the function throws
`No thingid found for deviceid: ...`, and the `catch` rethrows every error
wrapped as `MQTT Publish Failed: ...`. -/
def setting (gTopic : String → String → String → String) (meta : List SensorMeta)
    (users : List UserDoc) (pubFail : Option String) (deviceid : String) : SettingOutcome :=
  match getThingIdByDeviceId meta users deviceid with
  | none =>
    { result := Except.error ("MQTT Publish Failed: " ++ ("No thingid found for deviceid: " ++ deviceid))
      publishAttempted := false }
  | some thingid =>
    match pubFail with
    | some m =>
      { result := Except.error ("MQTT Publish Failed: " ++ m), publishAttempted := true }
    | none =>
      { result := Except.ok { success := true, topic := gTopic "setting" thingid "setting" }
        publishAttempted := true }

/-! Helper lemmas about the polling primitive and the most-recent query. -/

theorem mostRecentBy_eq_none_iff {A : Type} (f : A → Int) (l : List A) :
    mostRecentBy f l = none ↔ l = [] := by
  cases l with
  | nil => simp [mostRecentBy]
  | cons d ds =>
    cases h : mostRecentBy f ds with
    | none => simp [mostRecentBy, h]
    | some b =>
      by_cases hlt : f d < f b
      · simp [mostRecentBy, h, hlt]
      · simp [mostRecentBy, h, hlt]

theorem mostRecentBy_spec {A : Type} (f : A → Int) (l : List A) (d : A)
    (h : mostRecentBy f l = some d) : d ∈ l ∧ ∀ x ∈ l, f x ≤ f d := by
  induction l generalizing d with
  | nil => simp [mostRecentBy] at h
  | cons a as ih =>
    cases hm : mostRecentBy f as with
    | none =>
      simp only [mostRecentBy, hm, Option.some.injEq] at h
      subst h
      have has : as = [] := (mostRecentBy_eq_none_iff f as).mp hm
      subst has
      simp
    | some b =>
      simp only [mostRecentBy, hm] at h
      obtain ⟨hbmem, hble⟩ := ih b hm
      by_cases hlt : f a < f b
      · rw [if_pos hlt] at h
        simp only [Option.some.injEq] at h
        subst h
        refine ⟨List.mem_cons_of_mem _ hbmem, ?_⟩
        intro x hx
        rcases List.mem_cons.mp hx with rfl | hx
        · exact le_of_lt hlt
        · exact hble x hx
      · rw [if_neg hlt] at h
        simp only [Option.some.injEq] at h
        subst h
        refine ⟨List.mem_cons_self _ _, ?_⟩
        intro x hx
        rcases List.mem_cons.mp hx with rfl | hx
        · exact le_refl _
        · exact le_trans (hble x hx) (not_lt.mp hlt)

theorem pollLoopE_eq_none_iff {A : Type} (q : Int → QueryOutcome A) (s : Int) (offs : List Nat) :
    pollLoopE q s offs = none ↔ ∀ t ∈ offs, (q (s + (t : Int))).found? = none := by
  induction offs with
  | nil => simp [pollLoopE]
  | cons t ts ih =>
    simp only [pollLoopE]
    cases hq : q (s + (t : Int)) with
    | ok r =>
      cases r with
      | some d => simp [QueryOutcome.found?, hq]
      | none => simp [QueryOutcome.found?, hq, ih]
    | err => simp [QueryOutcome.found?, hq, ih]

theorem pollLoopE_some_exists {A : Type} (q : Int → QueryOutcome A) (s : Int) (offs : List Nat)
    (d : A) (h : pollLoopE q s offs = some d) :
    ∃ t ∈ offs, (q (s + (t : Int))).found? = some d := by
  induction offs with
  | nil => simp [pollLoopE] at h
  | cons t ts ih =>
    simp only [pollLoopE] at h
    cases hq : q (s + (t : Int)) with
    | ok r =>
      cases r with
      | some d0 =>
        rw [hq] at h
        simp only [Option.some.injEq] at h
        exact ⟨t, List.mem_cons_self _ _, by simp [hq, QueryOutcome.found?, h]⟩
      | none =>
        rw [hq] at h
        obtain ⟨u, hu, hf⟩ := ih h
        exact ⟨u, List.mem_cons_of_mem _ hu, hf⟩
    | err =>
      rw [hq] at h
      obtain ⟨u, hu, hf⟩ := ih h
      exact ⟨u, List.mem_cons_of_mem _ hu, hf⟩

theorem pollLoopE_cons_found {A : Type} (q : Int → QueryOutcome A) (s : Int) (t : Nat)
    (ts : List Nat) (d : A) (h : (q (s + (t : Int))).found? = some d) :
    pollLoopE q s (t :: ts) = some d := by
  simp only [pollLoopE]
  cases hq : q (s + (t : Int)) with
  | ok r =>
    cases r with
    | some d0 =>
      rw [hq] at h
      simp only [QueryOutcome.found?, Option.some.injEq] at h
      simp [h]
    | none =>
      rw [hq] at h
      simp [QueryOutcome.found?] at h
  | err =>
    rw [hq] at h
    simp [QueryOutcome.found?] at h

theorem pollLoopE_err_eq_noMatch {A : Type} (q : Int → QueryOutcome A) (s : Int) (offs : List Nat) :
    pollLoopE q s offs = pollLoopE (fun x => QueryOutcome.ok (q x).found?) s offs := by
  induction offs with
  | nil => rfl
  | cons t ts ih =>
    simp only [pollLoopE]
    cases hq : q (s + (t : Int)) with
    | ok r => cases r <;> simp [QueryOutcome.found?, ih]
    | err => simp [QueryOutcome.found?, ih]

theorem mem_pollTimes {I T t : Nat} (hI : 0 < I) :
    t ∈ pollTimes I T ↔ ∃ i, t = I * i ∧ I * i < T := by
  unfold pollTimes
  simp only [List.mem_map, List.mem_range]
  constructor
  · rintro ⟨i, hi, rfl⟩
    refine ⟨i, rfl, ?_⟩
    have h1 := (Nat.le_div_iff_mul_le hI).mp (Nat.succ_le_of_lt hi)
    have h2 : i * I + I ≤ T + I - 1 := by rw [Nat.succ_mul] at h1; omega
    have h3 : I * i = i * I := Nat.mul_comm I i
    omega
  · rintro ⟨i, rfl, hlt⟩
    refine ⟨i, ?_, rfl⟩
    have h3 : I * i = i * I := Nat.mul_comm I i
    have h2 : (i + 1) * I ≤ T + I - 1 := by rw [Nat.succ_mul]; omega
    exact Nat.lt_of_succ_le ((Nat.le_div_iff_mul_le hI).mpr h2)

theorem pollTimes_eq_cons {I T : Nat} (hI : 0 < I) (hT : 0 < T) :
    ∃ rest, pollTimes I T = 0 :: rest := by
  unfold pollTimes
  have hn : 0 < (T + I - 1) / I := by
    have := (Nat.le_div_iff_mul_le hI).mpr (by omega : 1 * I ≤ T + I - 1)
    omega
  obtain ⟨n, hn'⟩ : ∃ n, (T + I - 1) / I = n + 1 :=
    ⟨(T + I - 1) / I - 1, by omega⟩
  rw [hn', List.range_succ_eq_map]
  refine ⟨(List.map Nat.succ (List.range n)).map (fun i => I * i), ?_⟩
  simp

theorem findSlaveResponse_eq_none_iff (docs : List RespDoc) (thingid : String) (now : Int) :
    findSlaveResponse docs thingid now = none ↔ ∀ d ∈ docs, slaveMatch thingid now d = false := by
  unfold findSlaveResponse
  rw [mostRecentBy_eq_none_iff, List.filter_eq_nil_iff]
  simp

theorem findSlaveResponse_spec (docs : List RespDoc) (thingid : String) (now : Int)
    (d : RespDoc) (h : findSlaveResponse docs thingid now = some d) :
    d ∈ docs ∧ slaveMatch thingid now d = true ∧
      ∀ x ∈ docs, slaveMatch thingid now x = true → x.inserted_at ≤ d.inserted_at := by
  unfold findSlaveResponse at h
  obtain ⟨hmem, hle⟩ := mostRecentBy_spec _ _ _ h
  rw [List.mem_filter] at hmem
  exact ⟨hmem.1, hmem.2, fun x hx hmx => hle x (List.mem_filter.mpr ⟨hx, hmx⟩)⟩

theorem findSlaveResponse_isSome (docs : List RespDoc) (thingid : String) (now : Int)
    (h : ∃ d ∈ docs, slaveMatch thingid now d = true) :
    (findSlaveResponse docs thingid now).isSome = true := by
  unfold findSlaveResponse
  obtain ⟨d, hd, hm⟩ := h
  cases hfind : mostRecentBy RespDoc.inserted_at (docs.filter (slaveMatch thingid now)) with
  | none =>
    rw [mostRecentBy_eq_none_iff, List.filter_eq_nil_iff] at hfind
    exact absurd hm (by simpa using hfind d hd)
  | some b => rfl

/-! Claim theorems. -/

/-- Claim C9: `sanitizeMongoDoc` is idempotent — applied to an
already-normalized document (store-internal identifier already in canonical
printable string form, or absent) it returns an equal document — and all
fields other than the store-internal identifier pass through unchanged;
a null document also passes through. -/
theorem sanitize_idempotent :
    ∀ d : MDoc,
      (∀ s, d._id = some (MongoId.str s) → sanitizeMongoDoc d = d) ∧
      (d._id = none → sanitizeMongoDoc d = d) ∧
      (sanitizeMongoDoc d).fields = d.fields ∧
      sanitizeMongoDoc (sanitizeMongoDoc d) = sanitizeMongoDoc d ∧
      sanitizeMongoDocOpt none = none := by
  intro d
  obtain ⟨i, fl⟩ := d
  refine ⟨?_, ?_, ?_, ?_, rfl⟩
  · intro s hs
    have hi : i = some (MongoId.str s) := hs
    subst hi
    by_cases hne : s = ""
    · subst hne
      simp [sanitizeMongoDoc, idTruthy]
    · simp [sanitizeMongoDoc, idTruthy, hne, idToString]
  · intro h0
    have hi : i = none := h0
    subst hi
    simp [sanitizeMongoDoc, idTruthy]
  · unfold sanitizeMongoDoc
    split <;> rfl
  · cases i with
    | none => simp [sanitizeMongoDoc, idTruthy]
    | some mi =>
      cases mi with
      | oid s =>
        by_cases hne : s = ""
        · subst hne
          simp [sanitizeMongoDoc, idTruthy, idToString]
        · simp [sanitizeMongoDoc, idTruthy, idToString, hne]
      | str s =>
        by_cases hne : s = ""
        · subst hne
          simp [sanitizeMongoDoc, idTruthy, idToString]
        · simp [sanitizeMongoDoc, idTruthy, idToString, hne]

/-- Witness for C9: a document whose `_id` is already the string `"abc"`
is left unchanged by the normalizer. -/
theorem sanitize_idempotent_witness :
    sanitizeMongoDoc ⟨some (MongoId.str "abc"), [("k", "v")]⟩ =
      ⟨some (MongoId.str "abc"), [("k", "v")]⟩ :=
  (sanitize_idempotent ⟨some (MongoId.str "abc"), [("k", "v")]⟩).1 "abc" rfl

/-- Claim C10: a `slaveRequest` whose `sensor_no` is present but falsy
(the number 0 or the empty string, both with `jsTruthy` false) is rejected
exactly as if `sensor_no` were absent: HTTP 400, and no identity
resolution, publish or poll is attempted. -/
theorem slaveRequest_falsy_sensor_no_rejected :
    ∀ (meta : List SensorMeta) (users : List UserDoc) (docs : List RespDoc)
      (qerr : Int → Bool) (pubFail : Option String) (start : Int) (b : SlaveBody),
      jsTruthy b.sensor_no = false →
      slaveRequest meta users docs qerr pubFail start b =
        { resp := { status := 400, success := false, message := none,
                    error := some "Missing deviceid or sensor_no", data := none }
          resolved := false, published := none, polled := false } ∧
      slaveRequest meta users docs qerr pubFail start b =
        slaveRequest meta users docs qerr pubFail start { b with sensor_no := JVal.undef } := by
  intro meta users docs qerr pubFail start b h
  have key : ∀ b' : SlaveBody, jsTruthy b'.sensor_no = false →
      slaveRequest meta users docs qerr pubFail start b' =
        { resp := { status := 400, success := false, message := none,
                    error := some "Missing deviceid or sensor_no", data := none }
          resolved := false, published := none, polled := false } := by
    intro b' h'
    simp [slaveRequest, h']
  exact ⟨key b h, (key b h).trans (key { b with sensor_no := JVal.undef } rfl).symm⟩

/-- Witness for C10: the concrete call with `sensor_no = 0` returns the
400 response with no resolution, publish or poll. -/
theorem slaveRequest_falsy_sensor_no_rejected_witness :
    slaveRequest [] [] [] (fun _ => false) none 0
        ⟨"D1", JVal.num 0, JVal.undef, JVal.undef, JVal.undef, JVal.undef,
          JVal.undef, JVal.undef, JVal.undef⟩ =
      { resp := { status := 400, success := false, message := none,
                  error := some "Missing deviceid or sensor_no", data := none }
        resolved := false, published := none, polled := false } :=
  (slaveRequest_falsy_sensor_no_rejected [] [] [] (fun _ => false) none 0
    ⟨"D1", JVal.num 0, JVal.undef, JVal.undef, JVal.undef, JVal.undef,
      JVal.undef, JVal.undef, JVal.undef⟩ rfl).1

/-- Counterexample to claim C8: a supplied valid numeric mode of 0 is NOT
published as given — `parseInt(mode) || 3` treats the falsy 0 like an
absent mode, so the published payload carries mode 3. -/
theorem slave_payload_mode_zero_counterexample :
    ((slaveRequest [⟨"D1", some "T1", none, none⟩] [] [] (fun _ => false) (some "transport down") 0
        ⟨"D1", JVal.num 1, JVal.num 0, JVal.num 2, JVal.num 10, JVal.num 11,
          JVal.num 100, JVal.num 200, JVal.undef⟩).published.map SlavePayload.mode) = some 3 ∧
    some (3 : Int) ≠ some (0 : Int) := by
  exact ⟨rfl, by decide⟩

/-- Claim C8 (amended): the published payload carries mode, channel, range
and capacity as `parseInt` coercions, with mode defaulting to 3 when the
request's mode is absent, invalid, OR ZERO (a supplied nonzero numeric mode
is published as given, but mode 0 is published as 3); address fields pass
through unchanged and the slave id is included exactly when the supplied
value is truthy. -/
theorem slave_payload_construction :
    ∀ (meta : List SensorMeta) (users : List UserDoc) (docs : List RespDoc)
      (qerr : Int → Bool) (pubFail : Option String) (start : Int)
      (b : SlaveBody) (p : SlavePayload),
      (slaveRequest meta users docs qerr pubFail start b).published = some p →
      p = buildSlavePayload b ∧
      (∀ m : Int, jsParseInt b.mode = some m → m ≠ 0 → p.mode = m) ∧
      ((jsParseInt b.mode = none ∨ jsParseInt b.mode = some 0) → p.mode = 3) ∧
      p.channel = jsParseInt b.channel ∧
      p.range = jsParseInt b.range ∧
      p.capacity = jsParseInt b.capacity ∧
      p.address_l = b.address_l ∧
      p.address_h = b.address_h ∧
      p.deviceid = b.deviceid ∧
      p.sensor_no = b.sensor_no ∧
      (jsTruthy b.slaveid = true → p.slaveid = some b.slaveid) ∧
      (jsTruthy b.slaveid = false → p.slaveid = none) := by
  intro meta users docs qerr pubFail start b p h
  have hp : p = buildSlavePayload b := by
    unfold slaveRequest at h
    split at h
    · simp at h
    · split at h
      · simp at h
      · split at h
        · simp at h
          exact h.symm
        · split at h <;> simp at h <;> exact h.symm
  subst hp
  refine ⟨rfl, ?_, ?_, rfl, rfl, rfl, rfl, rfl, rfl, rfl, ?_, ?_⟩
  · intro m hm hm0
    simp [buildSlavePayload, jsOrNum, hm, hm0]
  · intro hcase
    rcases hcase with hm | hm <;> simp [buildSlavePayload, jsOrNum, hm]
  · intro ht
    simp [buildSlavePayload, ht]
  · intro ht
    simp [buildSlavePayload, ht]

/-- Witness for C8 (amended): a concrete call with nonzero mode 5 publishes
mode 5. -/
theorem slave_payload_construction_witness :
    (buildSlavePayload ⟨"D1", JVal.num 1, JVal.num 5, JVal.num 2, JVal.num 10, JVal.num 11,
        JVal.num 100, JVal.num 200, JVal.undef⟩).mode = 5 := by
  have h := slave_payload_construction [⟨"D1", some "T1", none, none⟩] [] [] (fun _ => false)
    (some "transport down") 0
    ⟨"D1", JVal.num 1, JVal.num 5, JVal.num 2, JVal.num 10, JVal.num 11,
      JVal.num 100, JVal.num 200, JVal.undef⟩
    (buildSlavePayload ⟨"D1", JVal.num 1, JVal.num 5, JVal.num 2, JVal.num 10, JVal.num 11,
      JVal.num 100, JVal.num 200, JVal.undef⟩) rfl
  exact h.2.1 5 rfl (by decide)

/-- Counterexample to claim C5: on an unresolvable device id, `setting`
raises the wrapped transport-failure error (`MQTT Publish Failed: ...`)
even though the publish operation was never attempted, conflating the
not-found outcome with the transport-failure wrapper. -/
theorem setting_notfound_wrapped_counterexample :
    (setting (fun _ _ _ => "t") [] [] none "D1").result =
      Except.error "MQTT Publish Failed: No thingid found for deviceid: D1" ∧
    (setting (fun _ _ _ => "t") [] [] none "D1").publishAttempted = false := by
  exact ⟨rfl, rfl⟩

/-- Claim C5 (amended): in `setting`, a resolution-not-found outcome throws
an error whose message identifies the not-found condition
(`No thingid found for deviceid: ...`) without attempting the publish, but
the surrounding catch-all wraps it in the same `MQTT Publish Failed:`
prefix used for genuine transport failures; the transport wrapper around
the underlying publish message is raised whenever the publish itself
fails. -/
theorem setting_error_outcomes :
    ∀ (gTopic : String → String → String → String) (meta : List SensorMeta)
      (users : List UserDoc) (pubFail : Option String) (deviceid : String),
      (getThingIdByDeviceId meta users deviceid = none →
        setting gTopic meta users pubFail deviceid =
          { result := Except.error
              ("MQTT Publish Failed: " ++ ("No thingid found for deviceid: " ++ deviceid))
            publishAttempted := false }) ∧
      (∀ thingid m, getThingIdByDeviceId meta users deviceid = some thingid → pubFail = some m →
        setting gTopic meta users pubFail deviceid =
          { result := Except.error ("MQTT Publish Failed: " ++ m), publishAttempted := true }) ∧
      (∀ thingid, getThingIdByDeviceId meta users deviceid = some thingid → pubFail = none →
        setting gTopic meta users pubFail deviceid =
          { result := Except.ok { success := true, topic := gTopic "setting" thingid "setting" }
            publishAttempted := true }) := by
  intro gTopic meta users pubFail deviceid
  refine ⟨?_, ?_, ?_⟩
  · intro h
    simp [setting, h]
  · intro thingid m h hm
    simp [setting, h, hm]
  · intro thingid h hm
    simp [setting, h, hm]

/-- Witness for C5 (amended): concrete publish-failure case. -/
theorem setting_error_outcomes_witness :
    setting (fun _ _ _ => "t") [⟨"D1", some "T1", none, none⟩] [] (some "boom") "D1" =
      { result := Except.error ("MQTT Publish Failed: " ++ "boom"), publishAttempted := true } :=
  (setting_error_outcomes (fun _ _ _ => "t") [⟨"D1", some "T1", none, none⟩] [] (some "boom")
    "D1").2.1 "T1" "boom" rfl rfl

/-- Counterexample to claim C3: a tank device whose parent reference points
to a non-existent sibling does NOT resolve to NotFound — the generic
fallback returns the tank record's own target-identity alias
(`thing_name = "TX"` here). -/
theorem resolve_tank_missing_parent_counterexample :
    getThingIdByDeviceId []
        [⟨some [⟨some [⟨"D1", "tank", some "D0", some "TX", none, none, none⟩]⟩]⟩] "D1" =
      some "TX" ∧
    some "TX" ≠ (none : Option String) := by
  exact ⟨rfl, by decide⟩

/-- Claim C3 (amended): for a dependent (tank) device record that is the
candidate examined, resolution never throws (the embedding is total) and:
when the parent reference is absent or empty the whole resolution returns
NotFound (null) immediately; but when the parent reference points to a
sibling that does not exist as an `independent` (base) device in the same
space, the generic fallback returns the tank record's OWN first truthy
target-identity alias when one is present, and only resolves to NotFound
when the tank record has no truthy alias either. -/
theorem resolve_tank_parent_behavior :
    ∀ (sdevs : List Device) (deviceid : String) (d : Device),
      d.device_id = deviceid → d.device_type = "tank" →
      ((d.parent_device_id = none → deviceStep sdevs deviceid d = ScanStep.abort) ∧
       (d.parent_device_id = some "" → deviceStep sdevs deviceid d = ScanStep.abort) ∧
       (∀ p, d.parent_device_id = some p → p ≠ "" →
          sdevs.find? (fun x => x.device_id == p && x.device_type == "base") = none →
          deviceStep sdevs deviceid d =
            (match getThingName d with
             | some t => ScanStep.found t
             | none => ScanStep.next))) ∧
      (∀ meta : List SensorMeta,
        (meta.find? (fun r => r.deviceid == deviceid)).bind metaThingId = none →
        deviceid ≠ "" →
        ((d.parent_device_id = none →
            getThingIdByDeviceId meta [⟨some [⟨some [d]⟩]⟩] deviceid = none) ∧
         (∀ p, d.parent_device_id = some p → p ≠ "" →
            getThingIdByDeviceId meta [⟨some [⟨some [d]⟩]⟩] deviceid = getThingName d))) := by
  intro sdevs deviceid d hid htype
  have hidb : (d.device_id == deviceid) = true := by simp [hid]
  have hnotbase : (d.device_type == "base") = false := by simp [htype]
  have htank : (d.device_type == "tank") = true := by simp [htype]
  have hstep : ∀ s : List Device,
      (d.parent_device_id = none → deviceStep s deviceid d = ScanStep.abort) ∧
      (d.parent_device_id = some "" → deviceStep s deviceid d = ScanStep.abort) ∧
      (∀ p, d.parent_device_id = some p → p ≠ "" →
        s.find? (fun x => x.device_id == p && x.device_type == "base") = none →
        deviceStep s deviceid d =
          (match getThingName d with
           | some t => ScanStep.found t
           | none => ScanStep.next)) := by
    intro s
    refine ⟨?_, ?_, ?_⟩
    · intro hp
      simp [deviceStep, hidb, hnotbase, htank, hp]
    · intro hp
      simp [deviceStep, hidb, hnotbase, htank, hp]
    · intro p hp hpne hfind
      simp only [deviceStep, hidb, hnotbase, htank, hp, if_true, if_false]
      simp [hpne, hfind]
  refine ⟨hstep sdevs, ?_⟩
  intro meta hmeta hdev
  have hdevb : (deviceid == "") = false := by simp [hdev]
  have humatch : userMatches deviceid (⟨some [⟨some [d]⟩]⟩ : UserDoc) = true := by
    simp [userMatches, hidb]
  constructor
  · intro hp
    have habort := (hstep [d]).1 hp
    simp [getThingIdByDeviceId, hdevb, hmeta, humatch, scanSpaces, scanDevices, habort]
  · intro p hp hpne
    have hselffind : ([d].find? (fun x => x.device_id == p && x.device_type == "base")) = none := by
      simp [List.find?, hnotbase]
    have hfall := (hstep [d]).2.2 p hp hpne hselffind
    cases hgtn : getThingName d with
    | some t =>
      rw [hgtn] at hfall
      simp [getThingIdByDeviceId, hdevb, hmeta, humatch, scanSpaces, scanDevices, hfall]
    | none =>
      rw [hgtn] at hfall
      simp [getThingIdByDeviceId, hdevb, hmeta, humatch, scanSpaces, scanDevices, hfall]

/-- Witness for C3 (amended): a concrete tank without `parent_device_id`
resolves to NotFound. -/
theorem resolve_tank_parent_behavior_witness :
    getThingIdByDeviceId []
        [⟨some [⟨some [⟨"D1", "tank", none, some "TX", none, none, none⟩]⟩]⟩] "D1" = none :=
  ((resolve_tank_parent_behavior [] "D1" ⟨"D1", "tank", none, some "TX", none, none, none⟩
      rfl rfl).2 [] rfl (by decide)).1 rfl

/-- Claim C2: `getThingIdByDeviceId` consults the `sensor_metadata`
fast path first and returns its target-identity field under any recognized
alias regardless of the device hierarchy; and for a device absent from the
fast path that exists in the hierarchy as a tank with parent `d0`, where
`d0` is a base device with target identity `t0` in the same space,
resolution returns `t0`. -/
theorem resolve_fast_path_precedence_and_tank_scenario :
    ∀ (meta : List SensorMeta) (users : List UserDoc) (deviceid : String)
      (r : SensorMeta) (t : String),
      (deviceid ≠ "" → meta.find? (fun x => x.deviceid == deviceid) = some r →
        metaThingId r = some t → getThingIdByDeviceId meta users deviceid = some t) ∧
      (∀ d0 d1 t0 : String, d1 ≠ "" → d0 ≠ "" → t0 ≠ "" →
        meta.find? (fun x => x.deviceid == d1) = none →
        getThingIdByDeviceId meta
          [⟨some [⟨some [⟨d1, "tank", some d0, none, none, none, none⟩,
                         ⟨d0, "base", none, some t0, none, none, none⟩]⟩]⟩] d1 = some t0) := by
  intro meta users deviceid r t
  constructor
  · intro hdev hfind hmeta
    have hdevb : (deviceid == "") = false := by simp [hdev]
    simp [getThingIdByDeviceId, hdevb, hfind, hmeta]
  · intro d0 d1 t0 hd1 hd0 ht0 hnometa
    have hd1b : (d1 == "") = false := by simp [hd1]
    simp [getThingIdByDeviceId, hd1b, hnometa, userMatches, scanSpaces, scanDevices, deviceStep,
      hd0, getThingName, firstTruthyStr, strTruthy, ht0]

/-- Witness for C2: a concrete device in `sensor_metadata` resolves through
the fast path even though the hierarchy would give a different answer. -/
theorem resolve_fast_path_precedence_and_tank_scenario_witness :
    getThingIdByDeviceId [⟨"D1", some "TM", none, none⟩]
        [⟨some [⟨some [⟨"D1", "base", none, some "TH", none, none, none⟩]⟩]⟩] "D1" =
      some "TM" :=
  (resolve_fast_path_precedence_and_tank_scenario [⟨"D1", some "TM", none, none⟩]
      [⟨some [⟨some [⟨"D1", "base", none, some "TH", none, none, none⟩]⟩]⟩] "D1"
      ⟨"D1", some "TM", none, none⟩ "TM").1 (by decide) rfl rfl

/-- Claim C4: after successful validation and resolution, `slaveRequest`
has exactly three outcomes: (a) a correlated reply within the 10-second
budget gives HTTP 200 with success and the normalized reply data; (b) no
reply within the budget gives HTTP 200 with success and null data; (c) a
publish failure is surfaced as HTTP 500 before any poll is attempted. -/
theorem slaveRequest_three_outcomes :
    ∀ (meta : List SensorMeta) (users : List UserDoc) (docs : List RespDoc)
      (qerr : Int → Bool) (pubFail : Option String) (start : Int)
      (b : SlaveBody) (thingid : String),
      b.deviceid ≠ "" → jsTruthy b.sensor_no = true →
      getThingIdByDeviceId meta users b.deviceid = some thingid →
      ((∀ r, pubFail = none →
          waitForSlaveResponseFromMongoDB docs qerr thingid start 10000 = some r →
          slaveRequest meta users docs qerr pubFail start b =
            { resp := { status := 200, success := true,
                        message := some "Published and response received",
                        error := none, data := some (buildSlaveData b r) }
              resolved := true, published := some (buildSlavePayload b), polled := true }) ∧
       (pubFail = none →
          waitForSlaveResponseFromMongoDB docs qerr thingid start 10000 = none →
          slaveRequest meta users docs qerr pubFail start b =
            { resp := { status := 200, success := true,
                        message := some "Published but no response received",
                        error := none, data := none }
              resolved := true, published := some (buildSlavePayload b), polled := true }) ∧
       (∀ m, pubFail = some m →
          slaveRequest meta users docs qerr pubFail start b =
            { resp := { status := 500, success := false, message := none,
                        error := some m, data := none }
              resolved := true, published := some (buildSlavePayload b), polled := false })) := by
  intro meta users docs qerr pubFail start b thingid hdev hsens hres
  have hdevb : (b.deviceid == "") = false := by simp [hdev]
  refine ⟨?_, ?_, ?_⟩
  · intro r hpf hwait
    simp [slaveRequest, hdevb, hsens, hres, hpf, hwait]
  · intro hpf hwait
    simp [slaveRequest, hdevb, hsens, hres, hpf, hwait]
  · intro m hpf
    simp [slaveRequest, hdevb, hsens, hres, hpf]

/-- Witness for C4: concrete publish-failure call returns the 500 outcome
without polling. -/
theorem slaveRequest_three_outcomes_witness :
    slaveRequest [⟨"D1", some "T1", none, none⟩] [] [] (fun _ => false) (some "boom") 0
        ⟨"D1", JVal.num 1, JVal.undef, JVal.undef, JVal.undef, JVal.undef,
          JVal.undef, JVal.undef, JVal.undef⟩ =
      { resp := { status := 500, success := false, message := none,
                  error := some "boom", data := none }
        resolved := true,
        published := some (buildSlavePayload
          ⟨"D1", JVal.num 1, JVal.undef, JVal.undef, JVal.undef, JVal.undef,
            JVal.undef, JVal.undef, JVal.undef⟩),
        polled := false } :=
  (slaveRequest_three_outcomes [⟨"D1", some "T1", none, none⟩] [] [] (fun _ => false)
      (some "boom") 0
      ⟨"D1", JVal.num 1, JVal.undef, JVal.undef, JVal.undef, JVal.undef,
        JVal.undef, JVal.undef, JVal.undef⟩ "T1"
      (by decide) rfl rfl).2.2 "boom" rfl

/-- Counterexample to claim C7: when the reply's nested payload omits
`slaveid`, the returned data does NOT fall back to the request's slave id —
the code takes `response.response_data?.slaveid` with no fallback, so the
returned slave id is `undefined` although the request supplied `"5"`. -/
theorem slave_reply_slaveid_no_fallback_counterexample :
    ((slaveRequest [⟨"D1", some "T1", none, none⟩] []
        [⟨"T1", JVal.str "D1", 0, "slave_response",
          some ⟨JVal.str "ok", JVal.num 2, JVal.num 10, JVal.num 11, JVal.num 1, JVal.undef⟩⟩]
        (fun _ => false) none 0
        ⟨"D1", JVal.num 1, JVal.num 3, JVal.num 2, JVal.num 10, JVal.num 11,
          JVal.num 100, JVal.num 200, JVal.str "5"⟩).resp.data.map SlaveData.slaveid) =
      some JVal.undef ∧
    JVal.undef ≠ JVal.str "5" := by
  exact ⟨rfl, by decide⟩

/-- Claim C7 (amended): in the reply data of `slaveRequest`, the status,
channel, address and sensor-index fields prefer the truthy value of the
nested response payload and otherwise fall back (status to the constant
"success", channel to the numeric coercion of the request channel, the
address and sensor-index fields to the request values), while the slave-id
field is taken from the nested response payload only, with no fallback to
the request value. -/
theorem slave_reply_data_reconciliation :
    ∀ (meta : List SensorMeta) (users : List UserDoc) (docs : List RespDoc)
      (qerr : Int → Bool) (start : Int) (b : SlaveBody) (thingid : String) (r : RespDoc),
      b.deviceid ≠ "" → jsTruthy b.sensor_no = true →
      getThingIdByDeviceId meta users b.deviceid = some thingid →
      waitForSlaveResponseFromMongoDB docs qerr thingid start 10000 = some r →
      (slaveRequest meta users docs qerr none start b).resp.data = some (buildSlaveData b r) ∧
      (jsTruthy (respDataField r.response_data RespData.status) = true →
        (buildSlaveData b r).status = respDataField r.response_data RespData.status) ∧
      (jsTruthy (respDataField r.response_data RespData.status) = false →
        (buildSlaveData b r).status = JVal.str "success") ∧
      (jsTruthy (respDataField r.response_data RespData.channel) = true →
        (buildSlaveData b r).channel = jsParseInt (respDataField r.response_data RespData.channel)) ∧
      (jsTruthy (respDataField r.response_data RespData.channel) = false →
        (buildSlaveData b r).channel = jsParseInt b.channel) ∧
      (jsTruthy (respDataField r.response_data RespData.address_l) = true →
        (buildSlaveData b r).address_l = respDataField r.response_data RespData.address_l) ∧
      (jsTruthy (respDataField r.response_data RespData.address_l) = false →
        (buildSlaveData b r).address_l = b.address_l) ∧
      (jsTruthy (respDataField r.response_data RespData.address_h) = true →
        (buildSlaveData b r).address_h = respDataField r.response_data RespData.address_h) ∧
      (jsTruthy (respDataField r.response_data RespData.address_h) = false →
        (buildSlaveData b r).address_h = b.address_h) ∧
      (jsTruthy (respDataField r.response_data RespData.sensor_no) = true →
        (buildSlaveData b r).sensor_no = respDataField r.response_data RespData.sensor_no) ∧
      (jsTruthy (respDataField r.response_data RespData.sensor_no) = false →
        (buildSlaveData b r).sensor_no = b.sensor_no) ∧
      (buildSlaveData b r).slaveid = respDataField r.response_data RespData.slaveid := by
  intro meta users docs qerr start b thingid r hdev hsens hres hwait
  have hdevb : (b.deviceid == "") = false := by simp [hdev]
  refine ⟨by simp [slaveRequest, hdevb, hsens, hres, hwait], ?_, ?_, ?_, ?_, ?_, ?_, ?_, ?_, ?_, ?_, rfl⟩
  all_goals intro h
  all_goals simp [buildSlaveData, jsOr, h]

/-- Witness for C7 (amended): concrete call whose reply supplies a truthy
status; the returned data carries that status and the response-payload
slave id. -/
theorem slave_reply_data_reconciliation_witness :
    (buildSlaveData
        ⟨"D1", JVal.num 1, JVal.num 3, JVal.num 2, JVal.num 10, JVal.num 11,
          JVal.num 100, JVal.num 200, JVal.str "5"⟩
        ⟨"T1", JVal.str "D1", 0, "slave_response",
          some ⟨JVal.str "ok", JVal.num 2, JVal.num 10, JVal.num 11, JVal.num 1, JVal.undef⟩⟩).status =
      JVal.str "ok" :=
  (slave_reply_data_reconciliation [⟨"D1", some "T1", none, none⟩] []
      [⟨"T1", JVal.str "D1", 0, "slave_response",
        some ⟨JVal.str "ok", JVal.num 2, JVal.num 10, JVal.num 11, JVal.num 1, JVal.undef⟩⟩]
      (fun _ => false) 0
      ⟨"D1", JVal.num 1, JVal.num 3, JVal.num 2, JVal.num 10, JVal.num 11,
        JVal.num 100, JVal.num 200, JVal.str "5"⟩ "T1"
      ⟨"T1", JVal.str "D1", 0, "slave_response",
        some ⟨JVal.str "ok", JVal.num 2, JVal.num 10, JVal.num 11, JVal.num 1, JVal.undef⟩⟩
      (by decide) rfl rfl rfl).2.1 rfl

theorem found_if_err_eq_none_iff {A : Type} (c : Bool) (o : Option A) :
    (if c then QueryOutcome.err else QueryOutcome.ok o).found? = none ↔ (c = true ∨ o = none) := by
  by_cases hc : c <;> simp [hc, QueryOutcome.found?]

/-- Claim C6: in all three polling loops (slave-reply, liveness and
sensor-update shapes), a store query error on an iteration is treated as
"no match this iteration": the erroring loop computes the same result as
an error-free loop whose erroring iterations simply return no document,
so a query error never aborts the poll early, and the poll ends without a
match exactly when every iteration of the full budget either errored or
found no matching document. -/
theorem poll_query_error_transient :
    ∀ (docs : List RespDoc) (tdocs : List TankReading) (qerr : Int → Bool)
      (thingid deviceid sensorNo : String) (start : Int) (T : Nat),
      (waitForSlaveResponseFromMongoDB docs qerr thingid start T =
        pollLoopE (fun now => QueryOutcome.ok
            (if qerr now then none else findSlaveResponse docs thingid now))
          start (pollTimes 500 T)) ∧
      (waitForSlaveResponseFromMongoDB docs qerr thingid start T = none ↔
        ∀ t ∈ pollTimes 500 T, qerr (start + (t : Int)) = true ∨
          findSlaveResponse docs thingid (start + (t : Int)) = none) ∧
      (checkBaseRespondedInMongo tdocs qerr deviceid start T = false ↔
        ∀ t ∈ pollTimes 1000 T, qerr (start + (t : Int)) = true ∨
          findAliveReply tdocs deviceid (start + (t : Int)) = none) ∧
      (checkTankRespondedInMongo tdocs qerr deviceid sensorNo start T = false ↔
        ∀ t ∈ pollTimes 1000 T, qerr (start + (t : Int)) = true ∨
          findUpdate tdocs deviceid sensorNo (start + (t : Int)) = none) := by
  intro docs tdocs qerr thingid deviceid sensorNo start T
  refine ⟨?_, ?_, ?_, ?_⟩
  · rw [waitForSlaveResponseFromMongoDB, pollLoopE_err_eq_noMatch]
    congr 1
    funext x
    by_cases hq : qerr x <;> simp [hq, QueryOutcome.found?]
  · rw [waitForSlaveResponseFromMongoDB, pollLoopE_eq_none_iff]
    simp only [found_if_err_eq_none_iff]
  · rw [checkBaseRespondedInMongo]
    rw [show ∀ o : Option TankReading, (o.isSome = false ↔ o = none) from fun o => by
      cases o <;> simp]
    rw [pollLoopE_eq_none_iff]
    simp only [found_if_err_eq_none_iff]
  · rw [checkTankRespondedInMongo]
    rw [show ∀ o : Option TankReading, (o.isSome = false ↔ o = none) from fun o => by
      cases o <;> simp]
    rw [pollLoopE_eq_none_iff]
    simp only [found_if_err_eq_none_iff]

/-- Witness for C6: with an always-erroring store, a 1-second slave-reply
poll over a store containing a matching document still ends without a
match (and only because the budget expired, after examining both
iterations). -/
theorem poll_query_error_transient_witness :
    waitForSlaveResponseFromMongoDB
        [⟨"T1", JVal.undef, 0, "slave_response", none⟩] (fun _ => true) "T1" 0 1000 = none :=
  (poll_query_error_transient [⟨"T1", JVal.undef, 0, "slave_response", none⟩] []
      (fun _ => true) "T1" "D1" "1" 0 1000).2.1.mpr (by decide)

theorem slaveMatch_bounds (thingid : String) (now : Int) (d : RespDoc)
    (h : slaveMatch thingid now d = true) :
    now - 15000 ≤ d.inserted_at ∧ d.inserted_at ≤ now := by
  simp [slaveMatch] at h
  obtain ⟨⟨⟨h1, h2⟩, h3⟩, h4⟩ := h
  exact ⟨by omega, h4⟩

/-- Claim C1: each iteration of the slave-reply poll queries for the most
recent matching document inserted within the 15-second recency window of
the current query time `start + 500 * i` (the window slides forward with
`i`); a returned document always comes from such a query, which returns a
most-recently-inserted matching document, found documents are returned
immediately (a match at the first query time is the result), and the poll
returns Timeout (`none`) precisely when no query time within the budget
has a qualifying document; every observed document was inserted before the
budget expired, so a document inserted after expiry is never observed. -/
theorem poll_slave_window_and_timeout :
    ∀ (docs : List RespDoc) (thingid : String) (start : Int) (T : Nat),
      (∀ d, waitForSlaveResponseFromMongoDB docs (fun _ => false) thingid start T = some d →
        ∃ i : Nat, 500 * i < T ∧
          findSlaveResponse docs thingid (start + ((500 * i : Nat) : Int)) = some d) ∧
      (∀ now d, findSlaveResponse docs thingid now = some d →
        d ∈ docs ∧ slaveMatch thingid now d = true ∧
          ∀ x ∈ docs, slaveMatch thingid now x = true → x.inserted_at ≤ d.inserted_at) ∧
      (∀ now, (∃ d ∈ docs, slaveMatch thingid now d = true) →
        (findSlaveResponse docs thingid now).isSome = true) ∧
      (waitForSlaveResponseFromMongoDB docs (fun _ => false) thingid start T = none ↔
        ∀ i : Nat, 500 * i < T →
          ∀ d ∈ docs, slaveMatch thingid (start + ((500 * i : Nat) : Int)) d = false) ∧
      (0 < T → ∀ d, findSlaveResponse docs thingid start = some d →
        waitForSlaveResponseFromMongoDB docs (fun _ => false) thingid start T = some d) ∧
      (∀ d, waitForSlaveResponseFromMongoDB docs (fun _ => false) thingid start T = some d →
        d.inserted_at < start + (T : Int)) := by
  intro docs thingid start T
  have hWeq : waitForSlaveResponseFromMongoDB docs (fun _ => false) thingid start T =
      pollLoopE (fun now => QueryOutcome.ok (findSlaveResponse docs thingid now)) start
        (pollTimes 500 T) := rfl
  have h1 : ∀ d, waitForSlaveResponseFromMongoDB docs (fun _ => false) thingid start T = some d →
      ∃ i : Nat, 500 * i < T ∧
        findSlaveResponse docs thingid (start + ((500 * i : Nat) : Int)) = some d := by
    intro d h
    rw [hWeq] at h
    obtain ⟨t, ht, hf⟩ := pollLoopE_some_exists _ _ _ _ h
    simp only [QueryOutcome.found?] at hf
    obtain ⟨i, rfl, hlt⟩ := (mem_pollTimes (by norm_num)).mp ht
    exact ⟨i, hlt, hf⟩
  refine ⟨h1, ?_, ?_, ?_, ?_, ?_⟩
  · intro now d h
    exact findSlaveResponse_spec docs thingid now d h
  · intro now h
    exact findSlaveResponse_isSome docs thingid now h
  · rw [hWeq, pollLoopE_eq_none_iff]
    constructor
    · intro h i hlt d hd
      have ht : (500 * i : Nat) ∈ pollTimes 500 T :=
        (mem_pollTimes (by norm_num)).mpr ⟨i, rfl, hlt⟩
      have hnone := h _ ht
      simp only [QueryOutcome.found?] at hnone
      rw [findSlaveResponse_eq_none_iff] at hnone
      exact hnone d hd
    · intro h t ht
      obtain ⟨i, rfl, hlt⟩ := (mem_pollTimes (by norm_num)).mp ht
      simp only [QueryOutcome.found?]
      rw [findSlaveResponse_eq_none_iff]
      exact h i hlt
  · intro hT d hfind
    obtain ⟨rest, hrest⟩ := pollTimes_eq_cons (by norm_num : (0 : Nat) < 500) hT
    rw [hWeq, hrest]
    apply pollLoopE_cons_found
    simpa [QueryOutcome.found?] using hfind
  · intro d h
    obtain ⟨i, hlt, hf⟩ := h1 d h
    obtain ⟨hmem, hmatch, hle⟩ := findSlaveResponse_spec _ _ _ _ hf
    have hub := (slaveMatch_bounds _ _ _ hmatch).2
    have hcast : ((500 * i : Nat) : Int) < (T : Int) := by exact_mod_cast hlt
    omega

/-- Witness for C1: with a single matching document inserted at the loop
start, the poll returns it immediately. -/
theorem poll_slave_window_and_timeout_witness :
    waitForSlaveResponseFromMongoDB
        [⟨"T1", JVal.undef, 0, "slave_response", none⟩] (fun _ => false) "T1" 0 10000 =
      some ⟨"T1", JVal.undef, 0, "slave_response", none⟩ :=
  (poll_slave_window_and_timeout [⟨"T1", JVal.undef, 0, "slave_response", none⟩]
      "T1" 0 10000).2.2.2.2.1 (by decide) ⟨"T1", JVal.undef, 0, "slave_response", none⟩ rfl
